/-
  Verification of the Cognitive Interaction Pipeline (FASE-4 backend).

  Shallow embedding of the core components of the repository:
  * backend/models/risk.py        — Risk, RiskLevel, RiskType, RiskDimension, RiskReport
  * backend/agents/tutor.py       — adaptive help-level selection
  * backend/core/ai_gateway.py    — orchestrator, risk rule engine, tutor mode,
                                    input validation, risk report reconstruction

  Components whose source file is not present in the repository snapshot
  (core/cognitive_engine.py, core/cache.py, core/constants.py, models/trace.py)
  are modelled from the specification and marked as such in their doc comments.

  Machine reals (Python floats such as ai_involvement) are modelled as ℚ.
-/
import Mathlib

/-! ## Risk data model (backend/models/risk.py) -/

/-- Risk types (subset relevant to the pipeline, from `RiskType` in risk.py). -/
inductive RiskType where
  | cognitive_delegation
  | superficial_reasoning
  | ai_dependency
  | lack_justification
  | academic_integrity
  | uncritical_acceptance
  | policy_violation
  deriving DecidableEq, Repr

/-- String value of a risk type, as serialized by the `str` enum. -/
def RiskType.str : RiskType → String
  | .cognitive_delegation => "cognitive_delegation"
  | .superficial_reasoning => "superficial_reasoning"
  | .ai_dependency => "ai_dependency"
  | .lack_justification => "lack_justification"
  | .academic_integrity => "academic_integrity"
  | .uncritical_acceptance => "uncritical_acceptance"
  | .policy_violation => "policy_violation"

/-- Severity levels, from `RiskLevel` in risk.py. -/
inductive RiskLevel where
  | critical
  | high
  | medium
  | low
  | info
  deriving DecidableEq, Repr

/-- Risk dimensions, from `RiskDimension` in risk.py. -/
inductive RiskDimension where
  | cognitive
  | ethical
  | epistemic
  | technical
  | governance
  deriving DecidableEq, Repr

/-- A detected risk, from the pydantic model `Risk` in risk.py.
`session_id` is a required field of the pydantic model (commented in the
source: a risk without a session lacks valid context). -/
structure Risk where
  id : String
  session_id : String
  student_id : String
  activity_id : String
  risk_type : RiskType
  risk_level : RiskLevel
  dimension : RiskDimension
  description : String
  evidence : List String := []
  trace_ids : List String := []
  root_cause : Option String := none
  recommendations : List String := []
  pedagogical_intervention : Option String := none
  resolved : Bool := false
  detected_by : String := "AR-IA"
  deriving DecidableEq, Repr

/-- Pydantic-style construction of a `Risk` from keyword arguments.
`session_id` is required: omitting it (passing `none`) raises a
pydantic `ValidationError`.  This mirrors calling `Risk(...)` in Python:
the call in `AIGateway.get_risk_report` omits `session_id`. -/
def Risk.construct (id : String) (session_id : Option String)
    (student_id activity_id : String) (risk_type : RiskType)
    (risk_level : RiskLevel) (dimension : RiskDimension)
    (description : String) (evidence : List String)
    (trace_ids : List String) : Except String Risk :=
  match session_id with
  | none => .error "ValidationError: session_id Field required"
  | some sid =>
      .ok { id := id, session_id := sid, student_id := student_id,
            activity_id := activity_id, risk_type := risk_type,
            risk_level := risk_level, dimension := dimension,
            description := description, evidence := evidence,
            trace_ids := trace_ids }

/-- Aggregated risk report, from `RiskReport` in risk.py. -/
structure RiskReport where
  id : String
  student_id : String
  activity_id : Option String := none
  total_risks : Nat := 0
  critical_risks : Nat := 0
  high_risks : Nat := 0
  medium_risks : Nat := 0
  low_risks : Nat := 0
  risk_distribution : List (String × Nat) := []
  risks : List Risk := []
  deriving Repr

/-- Bump the per-type counter in the distribution association list
(mirrors `self.risk_distribution[t] = self.risk_distribution.get(t, 0) + 1`). -/
def bumpDistribution (d : List (String × Nat)) (key : String) : List (String × Nat) :=
  match d with
  | [] => [(key, 1)]
  | (k, n) :: rest =>
      if k = key then (k, n + 1) :: rest else (k, n) :: bumpDistribution rest key

/-- `RiskReport.add_risk` from risk.py: appends the risk, increments
`total_risks`, increments the matching per-level counter (there is no
counter for `INFO`), and updates the per-type distribution. -/
def RiskReport.add_risk (rep : RiskReport) (risk : Risk) : RiskReport :=
  let rep := { rep with
    risks := rep.risks ++ [risk],
    total_risks := rep.total_risks + 1 }
  let rep :=
    match risk.risk_level with
    | .critical => { rep with critical_risks := rep.critical_risks + 1 }
    | .high => { rep with high_risks := rep.high_risks + 1 }
    | .medium => { rep with medium_risks := rep.medium_risks + 1 }
    | .low => { rep with low_risks := rep.low_risks + 1 }
    | .info => rep
  { rep with risk_distribution := bumpDistribution rep.risk_distribution risk.risk_type.str }

/-- Number of INFO-level risks recorded in a list. -/
def infoCount (rs : List Risk) : Nat :=
  rs.countP (fun r => r.risk_level == RiskLevel.info)

/-- The count invariant of a risk report: the total equals the sum of the
four per-level counters plus the number of INFO-level risks in the list. -/
def RiskReport.countInvariant (rep : RiskReport) : Prop :=
  rep.total_risks =
    rep.critical_risks + rep.high_risks + rep.medium_risks + rep.low_risks +
      infoCount rep.risks

instance (rep : RiskReport) : Decidable rep.countInvariant := by
  unfold RiskReport.countInvariant; infer_instance

/-- One `add_risk` step preserves the count invariant. -/
theorem add_risk_preserves_countInvariant (rep : RiskReport) (risk : Risk)
    (h : rep.countInvariant) : (rep.add_risk risk).countInvariant := by
  unfold RiskReport.countInvariant at h ⊢
  unfold RiskReport.add_risk infoCount
  cases hl : risk.risk_level <;>
    simp [List.countP_append, List.countP_cons, hl, infoCount] at h ⊢ <;>
    omega

/-- C3: for every report satisfying the count invariant and every sequence of
`add_risk` calls (risks of any level, INFO included), the invariant
`total_risks = critical + high + medium + low + #INFO` holds after each call;
in particular after folding any list of risks into the report. -/
theorem c3_add_risk_count_invariant (rep : RiskReport) (ks : List Risk)
    (h : rep.countInvariant) :
    (ks.foldl RiskReport.add_risk rep).countInvariant := by
  induction ks generalizing rep with
  | nil => simpa using h
  | cons k ks ih =>
      simpa using ih (rep.add_risk k) (add_risk_preserves_countInvariant rep k h)

/-- A fresh (all-zero) report for a student and activity, as constructed by
`RiskReport(id=..., student_id=..., activity_id=...)`. -/
def freshReport (student_id activity_id : String) : RiskReport :=
  { id := "report_" ++ student_id ++ "_" ++ activity_id,
    student_id := student_id, activity_id := some activity_id }

/-- Sample risks used to exercise the invariant on a concrete run. -/
def sampleInfoRisk : Risk :=
  { id := "r_info", session_id := "s1", student_id := "stu", activity_id := "act",
    risk_type := .policy_violation, risk_level := .info,
    dimension := .governance, description := "registro informativo" }

def sampleHighRisk : Risk :=
  { id := "r_high", session_id := "s1", student_id := "stu", activity_id := "act",
    risk_type := .cognitive_delegation, risk_level := .high,
    dimension := .cognitive, description := "delegacion total detectada" }

/-- Witness for C3: the invariant holds on a concrete fold that includes an
INFO-level risk. -/
theorem c3_add_risk_count_invariant_witness :
    (([sampleInfoRisk, sampleHighRisk, sampleInfoRisk].foldl
        RiskReport.add_risk (freshReport "stu" "act"))).countInvariant :=
  c3_add_risk_count_invariant (freshReport "stu" "act")
    [sampleInfoRisk, sampleHighRisk, sampleInfoRisk] (by decide)

/-! ## Cognitive traces

`models/trace.py` is not present in the repository snapshot (only its callers
are), so the trace record is modelled from the spec. -/

/-- Interaction type of a trace. Modelled from the spec: `interaction_type`
(student_prompt | ai_response | tutor_intervention), §3 CognitiveTrace;
`models/trace.py` is missing from the sources. -/
inductive InteractionType where
  | student_prompt
  | ai_response
  | tutor_intervention
  deriving DecidableEq, Repr

/-- Trace enrichment level. Modelled from the spec: N1..N4, always N4 for
this pipeline (§3); `models/trace.py` is missing from the sources. -/
inductive TraceLevel where
  | n1_raw
  | n2_preprocessed
  | n3_model_call
  | n4_cognitivo
  deriving DecidableEq, Repr

/-- The part of a trace metadata bag read by the tutor agent:
`_count_previous_hints` tests `"hints_provided" in
t.metadata.get("response_metadata", {})`, so we keep the key set of the
nested `response_metadata` dictionary. -/
structure TraceMetadata where
  response_metadata : List String := []
  deriving DecidableEq, Repr

/-- One utterance record. Modelled from the spec: §3 CognitiveTrace field
list (`models/trace.py` is missing from the sources); only the fields the
verified components read are kept. `ai_involvement` is a float in [0,1],
modelled as ℚ. -/
structure CognitiveTrace where
  id : String
  session_id : String
  student_id : String
  activity_id : String
  trace_level : TraceLevel := .n4_cognitivo
  interaction_type : InteractionType
  content : String
  cognitive_state : Option String := none
  cognitive_intent : Option String := none
  decision_justification : Option String := none
  alternatives_considered : List String := []
  strategy_type : Option String := none
  ai_involvement : ℚ := 1/2
  agent_id : Option String := none
  metadata : TraceMetadata := {}
  deriving DecidableEq, Repr

/-! ## Adaptive help level (backend/agents/tutor.py) -/

/-- Help levels, from `HelpLevel` in tutor.py. -/
inductive HelpLevel where
  | minimo
  | bajo
  | medio
  | alto
  deriving DecidableEq, Repr

/-- Numeric rank of a help level (minimo lowest), used to state the
monotone-decreasing property. -/
def HelpLevel.rank : HelpLevel → Nat
  | .minimo => 0
  | .bajo => 1
  | .medio => 2
  | .alto => 3

/-- A pedagogical strategy value object.  The source passes it around as a
dict; the fields mirror the keys read by the gateway and the tutor agent,
with the dict-`get` defaults of the respective call sites
(`strategy.get("response_type", "unknown")`,
`strategy.get("help_level", HelpLevel.MEDIO)`). -/
structure Strategy where
  response_type : String := "unknown"
  help_level : HelpLevel := .medio
  requires_justification : Bool := false
  deriving DecidableEq, Repr

/-- `TutorCognitivoAgent._count_previous_hints`: number of history traces
whose `metadata["response_metadata"]` contains the key `"hints_provided"`. -/
def count_previous_hints (student_history : List CognitiveTrace) : Nat :=
  student_history.countP
    (fun t => t.metadata.response_metadata.contains "hints_provided")

/-- Average `ai_involvement` over a history
(`sum(t.ai_involvement for t in student_history) / len(student_history)`). -/
def avg_ai_involvement (student_history : List CognitiveTrace) : ℚ :=
  (student_history.map (fun t => t.ai_involvement)).sum / student_history.length

/-- `TutorCognitivoAgent._determine_adaptive_help_level` from tutor.py.
Python control flow: an empty (or `None`) history returns the strategy level;
if more than 5 hints were received the function returns MEDIO for ALTO and
BAJO for MEDIO immediately; otherwise (including when the base level is BAJO
or MINIMO) it falls through to the average-involvement check, which demotes
ALTO and MEDIO by one; in every other case the strategy level is returned. -/
def determine_adaptive_help_level (student_history : List CognitiveTrace)
    (strategy : Strategy) : HelpLevel :=
  let strategy_level := strategy.help_level
  if student_history.isEmpty then strategy_level
  else
    let hints_received := count_previous_hints student_history
    let involvement_check : HelpLevel :=
      if avg_ai_involvement student_history > 6/10 then
        if strategy_level = .alto then .medio
        else if strategy_level = .medio then .bajo
        else strategy_level
      else strategy_level
    if hints_received > 5 then
      if strategy_level = .alto then .medio
      else if strategy_level = .medio then .bajo
      else involvement_check
    else involvement_check

/-- A history trace that counts as a received hint (its response metadata
carries `hints_provided`) with maximal AI involvement. -/
def hintTrace : CognitiveTrace :=
  { id := "t_hint", session_id := "s1", student_id := "stu", activity_id := "act",
    interaction_type := .ai_response, content := "pistas",
    ai_involvement := 1,
    metadata := { response_metadata := ["hints_provided"] } }

/-- A history with 6 hint traces: both demotion conditions hold
(hints > 5 and average involvement 1 > 0.6). -/
def c4History : List CognitiveTrace := List.replicate 6 hintTrace

/-- Counterexample for C4: with base level ALTO and BOTH demotion conditions
satisfied (6 prior hints > 5, average ai_involvement = 1 > 0.6), the code
returns MEDIO, not BAJO: the hint demotion returns immediately and the two
demotions never combine, contradicting the claim that base high with both
conditions yields low. -/
theorem c4_counterexample :
    count_previous_hints c4History > 5 ∧
    avg_ai_involvement c4History > 6/10 ∧
    determine_adaptive_help_level c4History
        { response_type := "guided_hints", help_level := .alto } =
      HelpLevel.medio := by
  refine ⟨by decide, by norm_num [avg_ai_involvement, c4History, hintTrace], by decide⟩

/-- C4 (amended): the adaptive help-level selection never returns a level
above the base level; base levels BAJO and MINIMO are always returned
unchanged; if the history is nonempty and more than 5 hints were received,
ALTO demotes to MEDIO and MEDIO to BAJO with no further demotion for high
average AI involvement (the demotions never combine); if at most 5 hints
were received, average ai_involvement > 0.6 demotes ALTO to MEDIO and
MEDIO to BAJO; otherwise the base level is returned. -/
theorem determine_adaptive_help_level_eq (history : List CognitiveTrace)
    (strategy : Strategy) :
    determine_adaptive_help_level history strategy =
      if history.isEmpty then strategy.help_level
      else if count_previous_hints history > 5 ∧
              (strategy.help_level = .alto ∨ strategy.help_level = .medio) then
        (if strategy.help_level = .alto then .medio else .bajo)
      else if avg_ai_involvement history > 6/10 then
        (if strategy.help_level = .alto then .medio
         else if strategy.help_level = .medio then .bajo
         else strategy.help_level)
      else strategy.help_level := by
  unfold determine_adaptive_help_level
  by_cases he : history.isEmpty
  · simp [he]
  · by_cases hh : count_previous_hints history > 5 <;>
      by_cases hav : avg_ai_involvement history > 6/10 <;>
        cases hsl : strategy.help_level <;> simp [he, hh, hav, hsl]

theorem c4_adaptive_help_level_amended (history : List CognitiveTrace)
    (strategy : Strategy) :
    (determine_adaptive_help_level history strategy).rank ≤
        strategy.help_level.rank ∧
    ((strategy.help_level = .bajo ∨ strategy.help_level = .minimo) →
      determine_adaptive_help_level history strategy = strategy.help_level) ∧
    (history ≠ [] → count_previous_hints history > 5 →
      (strategy.help_level = .alto →
        determine_adaptive_help_level history strategy = .medio) ∧
      (strategy.help_level = .medio →
        determine_adaptive_help_level history strategy = .bajo)) ∧
    (history ≠ [] → count_previous_hints history ≤ 5 →
      avg_ai_involvement history > 6/10 →
      (strategy.help_level = .alto →
        determine_adaptive_help_level history strategy = .medio) ∧
      (strategy.help_level = .medio →
        determine_adaptive_help_level history strategy = .bajo)) ∧
    (history ≠ [] → count_previous_hints history ≤ 5 →
      ¬ (avg_ai_involvement history > 6/10) →
      determine_adaptive_help_level history strategy = strategy.help_level) ∧
    (history = [] →
      determine_adaptive_help_level history strategy = strategy.help_level) := by
  rw [determine_adaptive_help_level_eq]
  have hne : history ≠ [] ↔ ¬ history.isEmpty = true := by
    cases history <;> simp
  by_cases he : history.isEmpty
  · have : history = [] := by cases history <;> simp_all
    simp [he, this]
  · by_cases hh : count_previous_hints history > 5 <;>
      by_cases hav : avg_ai_involvement history > 6/10 <;>
        cases hsl : strategy.help_level <;>
          simp_all [HelpLevel.rank] <;>
            split_ifs <;> simp_all [HelpLevel.rank] <;>
              first
                | exact absurd (by assumption) (by omega)
                | exact absurd (by assumption) (not_lt.mpr hav)

/-- Witness for C4 (amended): on a concrete 6-hint history with base MEDIO
the selection returns BAJO. -/
theorem c4_adaptive_help_level_amended_witness :
    determine_adaptive_help_level c4History
        { response_type := "guided_hints", help_level := .medio } =
      HelpLevel.bajo :=
  ((c4_adaptive_help_level_amended c4History
      { response_type := "guided_hints", help_level := .medio }).2.2.1
    (by decide) (by decide)).2 rfl

/-! ## Prompt classification and the Risk Rule Engine -/

/-- Classification of a prompt.  The classifier lives in
`core/cognitive_engine.py`, which is not in the repository snapshot, so the
record is modelled from the spec: `classify(prompt, context) →
Classification{cognitive_state, is_delegation, delegation_signals,
is_question}` (§4.1); the gateway reads exactly these dict keys. -/
structure Classification where
  cognitive_state : Option String := none
  is_delegation : Bool := false
  delegation_signals : List String := []
  is_question : Bool := false
  deriving DecidableEq, Repr

/-- `AIGateway._create_risk`: builds a `Risk` object and does NOT persist it
(source doc comment: creates the object "sin persistirlo aún").  Fresh uuids
are opaque; they are modelled by the fixed placeholder `"uuid4"`. -/
def create_risk (session_id student_id activity_id : String)
    (risk_type : RiskType) (risk_level : RiskLevel)
    (dimension : RiskDimension) (description : String)
    (evidence : List String) (trace_ids : List String)
    (root_cause : Option String := none)
    (recommendations : List String := [])
    (pedagogical_intervention : Option String := none) : Risk :=
  { id := "uuid4", session_id := session_id, student_id := student_id,
    activity_id := activity_id, risk_type := risk_type,
    risk_level := risk_level, dimension := dimension,
    description := description, evidence := evidence, trace_ids := trace_ids,
    root_cause := root_cause, recommendations := recommendations,
    pedagogical_intervention := pedagogical_intervention }

/-- Python `str.strip()`: drop leading and trailing whitespace.  Defined on
the character list so that it evaluates by kernel reduction. -/
def pyStrip (s : String) : String :=
  ⟨((s.data.dropWhile Char.isWhitespace).reverse.dropWhile
      Char.isWhitespace).reverse⟩

/-- The list of risks the rule engine in `AIGateway._analyze_risks_async`
detects (appends to its local `detected_risks`): RC1 delegation, RC2 AI
dependency, RC3 lack of justification, REp1 uncritical acceptance, in source
order.  All rules are evaluated; none short-circuits another. -/
def analyze_risks_detected (session_id : String)
    (input_trace response_trace : CognitiveTrace)
    (classification : Classification) : List Risk :=
  let rc1 : List Risk :=
    if classification.is_delegation then
      [create_risk session_id input_trace.student_id input_trace.activity_id
        .cognitive_delegation .high .cognitive
        ("Intento de delegación total detectado. El estudiante solicita " ++
         "soluciones completas sin descomposición del problema.")
        [input_trace.content.take 200,
         "Señales: " ++
           String.intercalate ", " (classification.delegation_signals.take 3)]
        [input_trace.id, response_trace.id]
        (some "Tendencia a delegar la resolución completa a la IA sin esfuerzo propio")
        ["Solicitar descomposición explícita del problema en subtareas",
         "Exigir justificación de cada paso antes de implementar",
         "Reducir nivel de ayuda del tutor temporalmente",
         "Asignar ejercicios similares sin acceso a IA"]
        (some "Activar modo socrático estricto: solo preguntas guía, sin pistas directas")]
    else []
  let rc2 : List Risk :=
    if input_trace.ai_involvement > 7/10 then
      [create_risk session_id input_trace.student_id input_trace.activity_id
        .ai_dependency .medium .cognitive
        ("Nivel de dependencia de IA elevado. " ++
         "El estudiante depende excesivamente de la asistencia de IA.")
        ["AI involvement elevado"]
        [input_trace.id]
        none
        ["Fomentar resolución autónoma con menos asistencia de IA",
         "Asignar ejercicios sin acceso a IA para desarrollar autonomía",
         "Revisar interacciones previas para identificar patrón de dependencia"]]
    else []
  let has_justification : Bool :=
    match input_trace.decision_justification with
    | some j => decide ((pyStrip j).length > 20)
    | none => false
  let rc3 : List Risk :=
    if !has_justification && !classification.is_question then
      [create_risk session_id input_trace.student_id input_trace.activity_id
        .lack_justification .low .cognitive
        ("El estudiante no proporciona justificación de sus decisiones o razonamiento. " ++
         "Esto dificulta evaluar su proceso cognitivo.")
        ["No se detectó campo decision_justification"]
        [input_trace.id]
        none
        ["Exigir explicitación del razonamiento en cada interacción",
         "Solicitar que explique por qué eligió cierto enfoque",
         "Usar prompts estructurados que incluyan sección de justificación"]]
    else []
  let alternatives := response_trace.alternatives_considered
  let rep1 : List Risk :=
    if alternatives.length = 0 ∧ input_trace.ai_involvement > 1/2 then
      [create_risk session_id input_trace.student_id input_trace.activity_id
        .uncritical_acceptance .medium .epistemic
        ("El estudiante no considera alternativas ni cuestiona las respuestas de la IA. " ++
         "Esto indica posible aceptación acrítica.")
        ["No se registraron alternativas consideradas"]
        [input_trace.id, response_trace.id]
        none
        ["Fomentar pensamiento crítico sobre otras opciones",
         "Solicitar comparación entre diferentes enfoques",
         "Pedir que identifique limitaciones de la solución propuesta"]]
    else []
  rc1 ++ rc2 ++ rc3 ++ rep1

/-- Input trace whose decision justification is exactly 20 characters
(no surrounding whitespace), in a non-question interaction. -/
def c8InputTrace : CognitiveTrace :=
  { id := "t_in", session_id := "s1", student_id := "stu", activity_id := "act",
    interaction_type := .student_prompt, content := "elijo un arreglo",
    decision_justification := some "aaaaaaaaaaaaaaaaaaaa",
    ai_involvement := 3/10 }

def c8ResponseTrace : CognitiveTrace :=
  { id := "t_out", session_id := "s1", student_id := "stu", activity_id := "act",
    interaction_type := .ai_response, content := "respuesta",
    alternatives_considered := ["otra opcion"],
    ai_involvement := 3/10 }

/-- Counterexample for C8: the claim says a justification of exactly 20
characters does not trigger the lack-of-justification rule, but the code
requires `len(strip) > 20` for a justification to count, so a stripped
justification of exactly 20 characters in a non-question interaction DOES
emit the lack_justification risk. -/
theorem c8_counterexample :
    (pyStrip "aaaaaaaaaaaaaaaaaaaa").length = 20 ∧
    (analyze_risks_detected "s1" c8InputTrace c8ResponseTrace
        { is_delegation := false, is_question := false }).map
        (fun r => r.risk_type) = [RiskType.lack_justification] := by
  have h20 : (pyStrip "aaaaaaaaaaaaaaaaaaaa").length = 20 := by decide
  refine ⟨h20, ?_⟩
  norm_num [analyze_risks_detected, c8InputTrace, c8ResponseTrace,
    create_risk, h20]

/-- C8 (amended): the rule engine emits a lack-of-justification risk iff the
input trace's decision justification is absent or its stripped length is at
most 20 characters (so a 20-character justification triggers it and a
21-character one does not) and the classification is not a question; every
such emitted risk is LOW-level and cognitive. -/
theorem c8_lack_justification_rule_amended (sid : String)
    (it rt : CognitiveTrace) (cls : Classification) :
    ((analyze_risks_detected sid it rt cls).any
        (fun r => r.risk_type == RiskType.lack_justification)) =
      ((match it.decision_justification with
        | none => true
        | some j => decide ((pyStrip j).length ≤ 20)) && !cls.is_question) ∧
    (∀ r ∈ analyze_risks_detected sid it rt cls,
        r.risk_type = RiskType.lack_justification →
          r.risk_level = RiskLevel.low ∧
          r.dimension = RiskDimension.cognitive) := by
  constructor
  · unfold analyze_risks_detected
    cases hj : it.decision_justification with
    | none =>
        cases hq : cls.is_question <;>
          split_ifs <;> simp_all [create_risk]
    | some j =>
        by_cases hl : (pyStrip j).length > 20 <;>
          cases hq : cls.is_question <;>
            split_ifs <;> simp_all [create_risk, Nat.not_lt] <;>
              (try split <;> simp_all [create_risk]) <;>
                (rw [decide_eq_false
                    (show ¬ (pyStrip j).length ≤ 20 by omega)]; decide)
  · intro r hr htype
    unfold analyze_risks_detected at hr
    split_ifs at hr <;> simp [create_risk] at hr <;>
      (try casesm* _ ∨ _, _ ∧ _) <;> subst_vars <;> simp_all

/-- Witness for C8 (amended): on the concrete 20-character-justification
non-question input, the rule fires. -/
theorem c8_lack_justification_rule_amended_witness :
    ((analyze_risks_detected "s1" c8InputTrace c8ResponseTrace
        { is_delegation := false, is_question := false }).any
      (fun r => r.risk_type == RiskType.lack_justification)) = true := by
  have h := (c8_lack_justification_rule_amended "s1" c8InputTrace
    c8ResponseTrace { is_delegation := false, is_question := false }).1
  rw [h]
  decide

/-! ## Language Model Port (backend/llm), response cache, gateway state -/

/-- Message roles of the LLM port (`LLMRole` in backend/llm). -/
inductive LLMRole where
  | system_role
  | user_role
  deriving DecidableEq, Repr

/-- A chat message sent to the port (`LLMMessage`). -/
structure LLMMessage where
  role : LLMRole
  content : String
  deriving DecidableEq, Repr

/-- A model response (`LLMResponse`, of which the gateway reads `.content`). -/
structure LLMResponse where
  content : String
  deriving DecidableEq, Repr

/-- A language-model backend: `generate(messages, max_tokens, temperature)`
returning text or a transport error. -/
def LLMGen : Type :=
  List LLMMessage → Nat → ℚ → Except String LLMResponse

/-- Modelled from the spec: `core/cache.py` (`LLMResponseCache`) is missing
from the sources.  §3 CacheEntry / §4.4: key = stable hash of
(normalized_prompt, mode, response_type, cognitive_state); the model keeps
the tuple itself as the key (a stable hash of it is injective by design). -/
structure CacheKey where
  prompt_norm : String
  mode : String
  response_type : String
  cognitive_state : Option String
  deriving DecidableEq, Repr

/-- Modelled from the spec: prompt normalization for the cache key
(whitespace-insensitive prompt text). -/
def normalize_prompt (p : String) : String := pyStrip p

/-- Modelled from the spec: the cache maps keys to response text. -/
def LLMCache : Type := List (CacheKey × String)

def cacheKey (prompt mode response_type : String)
    (cognitive_state : Option String) : CacheKey :=
  { prompt_norm := normalize_prompt prompt, mode := mode,
    response_type := response_type, cognitive_state := cognitive_state }

/-- Modelled from the spec: `cache.get(prompt, context, mode)`
(§4.4), a pure lookup on the derived key. -/
def cache_get (c : LLMCache) (prompt response_type : String)
    (cognitive_state : Option String) (mode : String) : Option String :=
  (c.find? (fun e => e.1 == cacheKey prompt mode response_type cognitive_state)).map
    (fun e => e.2)

/-- Modelled from the spec: `cache.set(prompt, response, context, mode)`. -/
def cache_set (c : LLMCache) (prompt response response_type : String)
    (cognitive_state : Option String) (mode : String) : LLMCache :=
  (cacheKey prompt mode response_type cognitive_state, response) :: c

/-- Session record as returned by the session repository:
`{student_id, activity_id, mode}`.  Stored modes are assumed valid (the
gateway converts them with `AgentMode(db_session.mode.upper())`). -/
inductive AgentMode where
  | tutor
  | simulator
  | evaluator
  deriving DecidableEq, Repr

structure SessionRec where
  student_id : String
  activity_id : String
  mode : AgentMode
  deriving DecidableEq, Repr

/-- The injectable persistence state of the stateless gateway: each
repository is `none` when not injected (backward-compatibility paths in the
source), plus the optional response cache and a counter of Language Model
Port invocations. -/
structure GatewayState where
  session_repo : Option (List (String × SessionRec)) := none
  trace_repo : Option (List CognitiveTrace) := none
  risk_repo : Option (List Risk) := none
  cache : Option LLMCache := none
  llm_calls : Nat := 0

/-- `AIGateway._persist_trace`: appends to the trace repository when it is
injected, otherwise does nothing. -/
def persist_trace (st : GatewayState) (t : CognitiveTrace) : GatewayState :=
  match st.trace_repo with
  | none => st
  | some ts => { st with trace_repo := some (ts ++ [t]) }

/-- `AIGateway._persist_risk`: builds the risk and appends it to the risk
repository when it is injected. -/
def persist_risk (st : GatewayState) (r : Risk) : GatewayState :=
  match st.risk_repo with
  | none => st
  | some rs => { st with risk_repo := some (rs ++ [r]) }

/-- The fixed fallback of `_generate_socratic_response` (returned when
`llm.generate` raises). -/
def SOCRATIC_FALLBACK : String :=
  "Para ayudarte mejor, necesito entender tu proceso de pensamiento:\n\n" ++
  "1. ¿Qué entendés que te están pidiendo resolver?\n" ++
  "2. ¿Qué conceptos creés que son relevantes?\n" ++
  "3. ¿Cómo funcionaría una solución ideal?\n" ++
  "4. ¿Qué intentaste hasta ahora?"

/-- The fixed fallback of `_generate_conceptual_explanation`. -/
def CONCEPTUAL_FALLBACK : String :=
  "**Concepto clave**: [El concepto que preguntas es fundamental en programación]\n\n" ++
  "**Principio**: [Por qué es importante entenderlo]\n\n" ++
  "**Ejemplo simple**: [Analogía o ejemplo concreto]\n\n" ++
  "**Aplicación**: [Cómo lo usarías en la práctica]\n\n" ++
  "¿Tiene sentido? ¿Qué parte quieres que profundice?"

/-- The fixed fallback of `_generate_guided_hints`. -/
def GUIDED_HINTS_FALLBACK : String :=
  "**Pista 1**: Considerá descomponer el problema en subproblemas más pequeños\n\n" ++
  "**Pista 2**: Pensá en qué estructuras de datos te facilitarían el acceso a la información\n\n" ++
  "**Pista 3**: No olvides considerar los casos especiales (vacío, un elemento, etc.)\n\n" ++
  "**Próximo paso**: Intenta escribir el esqueleto de la solución primero\n\n" ++
  "¿Con cuál pista querés que profundice?"

/-- The socratic system prompt (first line; the remaining instruction text
does not influence control flow and is elided). -/
def socratic_messages (prompt : String) : List LLMMessage :=
  [{ role := .system_role,
     content := "Eres un tutor socrático. Tu objetivo es guiar al estudiante a descubrir la respuesta por sí mismo mediante preguntas orientadoras." },
   { role := .user_role, content := "Pregunta: " ++ prompt }]

def conceptual_messages (prompt : String) : List LLMMessage :=
  [{ role := .system_role,
     content := "Eres un tutor pedagógico. Explica conceptos fundamentales de manera clara y didáctica." },
   { role := .user_role, content := "Pregunta: " ++ prompt }]

def guided_hints_messages (prompt : String) : List LLMMessage :=
  [{ role := .system_role,
     content := "Eres un tutor que da pistas graduadas. NO des la solución completa." },
   { role := .user_role, content := "Pregunta: " ++ prompt }]

/-- `AIGateway._generate_socratic_response`: one `llm.generate` call
(max_tokens 300, temperature 0.7); the stripped response content on success,
the fixed canned scaffold on any exception. -/
def generate_socratic_response (llm : LLMGen) (st : GatewayState)
    (prompt : String) (strategy : Strategy) : GatewayState × String :=
  let st := { st with llm_calls := st.llm_calls + 1 }
  match llm (socratic_messages prompt) 300 (7/10) with
  | .ok r => (st, pyStrip r.content)
  | .error _ => (st, SOCRATIC_FALLBACK)

/-- `AIGateway._generate_conceptual_explanation` (max_tokens 400). -/
def generate_conceptual_explanation (llm : LLMGen) (st : GatewayState)
    (prompt : String) (strategy : Strategy) : GatewayState × String :=
  let st := { st with llm_calls := st.llm_calls + 1 }
  match llm (conceptual_messages prompt) 400 (7/10) with
  | .ok r => (st, pyStrip r.content)
  | .error _ => (st, CONCEPTUAL_FALLBACK)

/-- `AIGateway._generate_guided_hints` (max_tokens 350). -/
def generate_guided_hints (llm : LLMGen) (st : GatewayState)
    (prompt : String) (strategy : Strategy) : GatewayState × String :=
  let st := { st with llm_calls := st.llm_calls + 1 }
  match llm (guided_hints_messages prompt) 350 (7/10) with
  | .ok r => (st, pyStrip r.content)
  | .error _ => (st, GUIDED_HINTS_FALLBACK)

/-- `AIGateway._generate_clarification_request`: a fixed text, no LLM call. -/
def generate_clarification_request (prompt : String) (strategy : Strategy) :
    String :=
  "\nPara poder ayudarte mejor, necesito que seas más específico:\n\n" ++
  "- ¿Qué parte exacta del problema te genera dificultad?\n" ++
  "- ¿Qué intentaste hasta ahora?\n" ++
  "- ¿Qué resultado esperabas vs. qué obtuviste?\n\n" ++
  "Por favor, reformulá tu pregunta con más detalles.\n"

/-- Metadata attached to a tutor-mode response dict. -/
structure ResponseMetadata where
  response_type : String
  cognitive_state : Option String
  from_cache : Bool
  deriving DecidableEq, Repr

/-- The tutor-mode response dict of `_process_tutor_mode`. -/
structure TutorResponse where
  response : String
  strategy : Strategy
  mode : String
  metadata : ResponseMetadata
  deriving DecidableEq, Repr

/-- `AIGateway._process_tutor_mode`: consult the cache; on a hit return the
cached text with `from_cache = true` and no generation; on a miss dispatch
on `response_type` (socratic | conceptual | guided hints, anything else
falls back to the conceptual explanation), store the result in the cache,
and return it with `from_cache = false`. -/
def process_tutor_mode (llm : LLMGen) (st : GatewayState)
    (session_id prompt : String) (strategy : Strategy)
    (classification : Classification) : GatewayState × TutorResponse :=
  let response_type := strategy.response_type
  let cached : Option String :=
    match st.cache with
    | none => none
    | some c =>
        cache_get c prompt response_type classification.cognitive_state "TUTOR"
  match cached with
  | some m =>
      (st, { response := m, strategy := strategy, mode := "tutor",
             metadata := { response_type := response_type,
                           cognitive_state := classification.cognitive_state,
                           from_cache := true } })
  | none =>
      let gen : GatewayState × String :=
        if response_type = "socratic_questioning" then
          generate_socratic_response llm st prompt strategy
        else if response_type = "conceptual_explanation" then
          generate_conceptual_explanation llm st prompt strategy
        else if response_type = "guided_hints" then
          generate_guided_hints llm st prompt strategy
        else
          generate_conceptual_explanation llm st prompt strategy
      let st := gen.1
      let message := gen.2
      let st :=
        match st.cache with
        | none => st
        | some c =>
            { st with cache := some (cache_set c prompt message response_type
                classification.cognitive_state "TUTOR") }
      (st, { response := message, strategy := strategy, mode := "tutor",
             metadata := { response_type := response_type,
                           cognitive_state := classification.cognitive_state,
                           from_cache := false } })

/-! ### Cache round trip (C5) -/

theorem cache_get_set (c : LLMCache) (p m rt : String) (cs : Option String)
    (md : String) : cache_get (cache_set c p m rt cs md) p rt cs md = some m := by
  simp [cache_get, cache_set, List.find?]

theorem generate_socratic_response_fst (llm : LLMGen) (st : GatewayState)
    (p : String) (s : Strategy) :
    (generate_socratic_response llm st p s).1 =
      { st with llm_calls := st.llm_calls + 1 } := by
  unfold generate_socratic_response
  cases llm (socratic_messages p) 300 (7/10) <;> rfl

theorem generate_conceptual_explanation_fst (llm : LLMGen) (st : GatewayState)
    (p : String) (s : Strategy) :
    (generate_conceptual_explanation llm st p s).1 =
      { st with llm_calls := st.llm_calls + 1 } := by
  unfold generate_conceptual_explanation
  cases llm (conceptual_messages p) 400 (7/10) <;> rfl

theorem generate_guided_hints_fst (llm : LLMGen) (st : GatewayState)
    (p : String) (s : Strategy) :
    (generate_guided_hints llm st p s).1 =
      { st with llm_calls := st.llm_calls + 1 } := by
  unfold generate_guided_hints
  cases llm (guided_hints_messages p) 350 (7/10) <;> rfl

/-- The generation dispatch of `_process_tutor_mode`: its state component is
always one LLM call added to the input state. -/
theorem tutor_dispatch_fst (llm : LLMGen) (st : GatewayState)
    (p : String) (s : Strategy) :
    (if s.response_type = "socratic_questioning" then
        generate_socratic_response llm st p s
      else if s.response_type = "conceptual_explanation" then
        generate_conceptual_explanation llm st p s
      else if s.response_type = "guided_hints" then
        generate_guided_hints llm st p s
      else generate_conceptual_explanation llm st p s).1 =
      { st with llm_calls := st.llm_calls + 1 } := by
  split_ifs <;>
    first
      | exact generate_socratic_response_fst ..
      | exact generate_conceptual_explanation_fst ..
      | exact generate_guided_hints_fst ..

/-- A cache miss runs the dispatch once, stores the produced message under
the derived key, and reports `from_cache = false`. -/
theorem process_tutor_mode_miss (llm : LLMGen) (st : GatewayState)
    (sid p : String) (strat : Strategy) (cls : Classification) (c : LLMCache)
    (hc : st.cache = some c)
    (hmiss : cache_get c p strat.response_type cls.cognitive_state "TUTOR" = none) :
    process_tutor_mode llm st sid p strat cls =
      ({ st with
          llm_calls := st.llm_calls + 1,
          cache := some (cache_set c p
            (if strat.response_type = "socratic_questioning" then
               generate_socratic_response llm st p strat
             else if strat.response_type = "conceptual_explanation" then
               generate_conceptual_explanation llm st p strat
             else if strat.response_type = "guided_hints" then
               generate_guided_hints llm st p strat
             else generate_conceptual_explanation llm st p strat).2
            strat.response_type cls.cognitive_state "TUTOR") },
       { response :=
           (if strat.response_type = "socratic_questioning" then
              generate_socratic_response llm st p strat
            else if strat.response_type = "conceptual_explanation" then
              generate_conceptual_explanation llm st p strat
            else if strat.response_type = "guided_hints" then
              generate_guided_hints llm st p strat
            else generate_conceptual_explanation llm st p strat).2,
         strategy := strat, mode := "tutor",
         metadata := { response_type := strat.response_type,
                       cognitive_state := cls.cognitive_state,
                       from_cache := false } }) := by
  unfold process_tutor_mode
  rw [hc]
  simp only [hmiss]
  have hfst := tutor_dispatch_fst llm st p strat
  rw [hfst]
  simp [hc]

/-- A cache hit returns the cached text unchanged with `from_cache = true`
and leaves the state untouched (no LLM call). -/
theorem process_tutor_mode_hit (llm : LLMGen) (st : GatewayState)
    (sid p : String) (strat : Strategy) (cls : Classification)
    (c : LLMCache) (m : String) (hc : st.cache = some c)
    (hhit : cache_get c p strat.response_type cls.cognitive_state "TUTOR" = some m) :
    process_tutor_mode llm st sid p strat cls =
      (st, { response := m, strategy := strat, mode := "tutor",
             metadata := { response_type := strat.response_type,
                           cognitive_state := cls.cognitive_state,
                           from_cache := true } }) := by
  unfold process_tutor_mode
  rw [hc]
  simp only [hhit]

/-- C5: starting from an empty cache, two sequential tutor-mode calls with
identical (prompt, strategy, classification) inputs yield `from_cache=false`
then `from_cache=true`, the second response text equals the first, and the
Language Model Port is invoked exactly once (hence at most once) across both
calls. -/
theorem c5_cache_round_trip (llm : LLMGen) (st : GatewayState)
    (sid p : String) (strat : Strategy) (cls : Classification)
    (hc : st.cache = some []) :
    (process_tutor_mode llm st sid p strat cls).2.metadata.from_cache = false ∧
    (process_tutor_mode llm (process_tutor_mode llm st sid p strat cls).1
        sid p strat cls).2.metadata.from_cache = true ∧
    (process_tutor_mode llm (process_tutor_mode llm st sid p strat cls).1
        sid p strat cls).2.response =
      (process_tutor_mode llm st sid p strat cls).2.response ∧
    (process_tutor_mode llm (process_tutor_mode llm st sid p strat cls).1
        sid p strat cls).1.llm_calls = st.llm_calls + 1 := by
  have hmiss : cache_get [] p strat.response_type cls.cognitive_state "TUTOR"
      = none := rfl
  have h1 := process_tutor_mode_miss llm st sid p strat cls [] hc hmiss
  rw [h1]
  have h2 := process_tutor_mode_hit llm
    (process_tutor_mode llm st sid p strat cls).1 sid p strat cls _ _
    (by rw [h1]) (cache_get_set [] p _ strat.response_type
      cls.cognitive_state "TUTOR")
  rw [h1] at h2
  rw [h2]
  refine ⟨rfl, rfl, rfl, rfl⟩

/-- A language model that always raises, and a state with no cache, used as
concrete witnesses. -/
def failingLLM : LLMGen := fun _ _ _ => .error "timeout"

def emptyCacheState : GatewayState :=
  { session_repo := none, trace_repo := none, risk_repo := none,
    cache := some [], llm_calls := 0 }

/-- Witness for C5: a concrete double call on an empty cache. -/
theorem c5_cache_round_trip_witness :
    (process_tutor_mode failingLLM emptyCacheState "s1" "que es una cola"
        { response_type := "conceptual_explanation" } {}).2.metadata.from_cache
        = false ∧
    (process_tutor_mode failingLLM
        (process_tutor_mode failingLLM emptyCacheState "s1" "que es una cola"
          { response_type := "conceptual_explanation" } {}).1
        "s1" "que es una cola"
        { response_type := "conceptual_explanation" } {}).2.metadata.from_cache
        = true ∧
    (process_tutor_mode failingLLM
        (process_tutor_mode failingLLM emptyCacheState "s1" "que es una cola"
          { response_type := "conceptual_explanation" } {}).1
        "s1" "que es una cola"
        { response_type := "conceptual_explanation" } {}).2.response =
      (process_tutor_mode failingLLM emptyCacheState "s1" "que es una cola"
        { response_type := "conceptual_explanation" } {}).2.response ∧
    (process_tutor_mode failingLLM
        (process_tutor_mode failingLLM emptyCacheState "s1" "que es una cola"
          { response_type := "conceptual_explanation" } {}).1
        "s1" "que es una cola"
        { response_type := "conceptual_explanation" } {}).1.llm_calls =
      emptyCacheState.llm_calls + 1 :=
  c5_cache_round_trip failingLLM emptyCacheState "s1" "que es una cola"
    { response_type := "conceptual_explanation" } {} rfl

/-! ### Fallback strategy for unknown response types (C9) -/

/-- Counterexample for C9: in `_process_tutor_mode`, a strategy with
`response_type = "unknown"` (the low-confidence fallback) produces the
conceptual explanation (here, on a failing model, its canned text), which is
not the clarification-request text — the pipeline never invokes
`_generate_clarification_request`. -/
theorem c9_counterexample :
    (process_tutor_mode failingLLM {} "s1" "ayuda"
        { response_type := "unknown" } {}).2.response = CONCEPTUAL_FALLBACK ∧
    CONCEPTUAL_FALLBACK ≠
      generate_clarification_request "ayuda" { response_type := "unknown" } := by
  constructor
  · rfl
  · decide

/-- C9 (amended): in tutor mode, a strategy whose `response_type` is
`"unknown"` falls back, on a cache miss, to the conceptual explanation
generator (`_generate_conceptual_explanation`), not to a clarification
request; the clarification fallback exists only in
`TutorCognitivoAgent.generate_response`, which this pipeline does not call. -/
theorem c9_unknown_fallback_amended (llm : LLMGen) (st : GatewayState)
    (sid p : String) (strat : Strategy) (cls : Classification)
    (hrt : strat.response_type = "unknown")
    (hmiss : (match st.cache with
      | none => none
      | some c =>
          cache_get c p strat.response_type cls.cognitive_state "TUTOR") =
        (none : Option String)) :
    (process_tutor_mode llm st sid p strat cls).2.response =
      (generate_conceptual_explanation llm st p strat).2 := by
  unfold process_tutor_mode
  rw [hrt] at hmiss
  simp only [hrt, hmiss]
  repeat' split
  all_goals first | rfl | simp_all

/-- Witness for C9 (amended): concrete unknown-type interaction with no
cache injected. -/
theorem c9_unknown_fallback_amended_witness :
    (process_tutor_mode failingLLM {} "s1" "ayuda"
        { response_type := "unknown" } {}).2.response =
      (generate_conceptual_explanation failingLLM {} "ayuda"
        { response_type := "unknown" }).2 :=
  c9_unknown_fallback_amended failingLLM {} "s1" "ayuda"
    { response_type := "unknown" } {} rfl rfl

/-! ## Input validation and the full interaction pipeline -/

/-- Validation bounds.  Modelled from the spec: `core/constants.py`
(PROMPT_MIN_LENGTH, PROMPT_MAX_LENGTH, CONTEXT_MAX_SIZE_BYTES,
SESSION_ID_MAX_LENGTH) is missing from the sources, so the bounds are kept
abstract. -/
structure ValidationConsts where
  PROMPT_MIN_LENGTH : Nat
  PROMPT_MAX_LENGTH : Nat
  CONTEXT_MAX_SIZE_BYTES : Nat
  SESSION_ID_MAX_LENGTH : Nat

/-- A context payload abstracted to its JSON-serialized UTF-8 byte size
(`len(json.dumps(context).encode("utf-8"))` in the validator); payloads here
are always serializable. -/
structure ContextPayload where
  json_size : Nat
  deriving DecidableEq, Repr

/-- `AIGateway._validate_interaction_input`: session id non-empty and within
its length bound, prompt non-empty with stripped length within
[PROMPT_MIN_LENGTH, PROMPT_MAX_LENGTH], optional context within the byte
ceiling.  An oversized context raises inside the serialization `try` block,
so its ValueError is re-wrapped by the `except` clause, as in the source. -/
def validate_interaction_input (c : ValidationConsts) (session_id prompt : String)
    (context : Option ContextPayload) : Except String Unit :=
  if session_id = "" then
    .error "session_id debe ser un string no vacío"
  else if session_id.length > c.SESSION_ID_MAX_LENGTH then
    .error "session_id excede longitud máxima"
  else if prompt = "" then
    .error "prompt debe ser un string no vacío"
  else
    let prompt_length := (pyStrip prompt).length
    if prompt_length < c.PROMPT_MIN_LENGTH then
      .error "Prompt demasiado corto"
    else if prompt_length > c.PROMPT_MAX_LENGTH then
      .error "Prompt demasiado largo"
    else
      match context with
      | none => .ok ()
      | some ctx =>
          if ctx.json_size > c.CONTEXT_MAX_SIZE_BYTES then
            .error "Context no es serializable a JSON: Context demasiado grande"
          else .ok ()

/-- The governance gate.  Modelled from the spec:
`CognitiveReasoningEngine.should_block_response` lives in
`core/cognitive_engine.py`, which is missing from the sources; §4.2: block
iff `is_delegation`, with a human-readable reason. -/
def should_block_response (c : Classification) : Bool × String :=
  if c.is_delegation then
    (true, "La solicitud delega la resolución completa del problema a la IA")
  else (false, "")

/-- `AIGateway._create_trace`: builds a `CognitiveTrace` without persisting
it.  Fresh uuids are opaque and modelled by the placeholder `"uuid4"`. -/
def create_trace (session_id student_id activity_id : String)
    (interaction_type : InteractionType) (content : String)
    (level : TraceLevel) (cognitive_intent : Option String := none)
    (agent_id : Option String := none) : CognitiveTrace :=
  { id := "uuid4", session_id := session_id, student_id := student_id,
    activity_id := activity_id, trace_level := level,
    interaction_type := interaction_type, content := content,
    cognitive_intent := cognitive_intent, agent_id := agent_id }

/-- `AIGateway._get_student_history`: reads up to 100 of the student's
traces from the trace repository (empty when not injected), then filters by
activity when one is given. -/
def get_student_history (st : GatewayState) (student_id : String)
    (activity_id : Option String) : List CognitiveTrace :=
  match st.trace_repo with
  | none => []
  | some db =>
      let traces := (db.filter (fun t => t.student_id == student_id)).take 100
      match activity_id with
      | some aid => traces.filter (fun t => t.activity_id == aid)
      | none => traces

/-- `AIGateway._analyze_risks_async`: returns early when the risk repository
is not injected; otherwise it builds the detected risks with `_create_risk`
and logs them.  `_create_risk` only constructs the object ("sin persistirlo
aún") and the function never calls `risk_repo.create`, so the state comes
back unchanged — even though the source's closing comment claims the risks
"are already persisted by _create_risk()".  The detected list is returned
alongside for specification purposes (the source discards it). -/
def analyze_risks_async (st : GatewayState) (session_id : String)
    (input_trace response_trace : CognitiveTrace)
    (classification : Classification) : GatewayState × List Risk :=
  match st.risk_repo with
  | none => (st, [])
  | some _ =>
      (st, analyze_risks_detected session_id input_trace response_trace
        classification)

/-- The pedagogical text of `_generate_blocked_response` (the `reason` is
interpolated into the message). -/
def blocked_message (reason : String) : String :=
  "He detectado que tu solicitud implica una delegación total del problema a la IA.\n\n" ++
  reason ++
  "\n\nPara poder ayudarte efectivamente, necesito que:\n\n" ++
  "1. **Expliques tu comprensión del problema**: ¿Qué te piden resolver?\n" ++
  "2. **Descompongas el problema**: ¿Qué partes identificas?\n" ++
  "3. **Compartas tu plan inicial**: ¿Cómo pensás abordarlo?\n" ++
  "4. **Identifiques tus dudas específicas**: ¿Qué parte específica te genera dificultad?\n\n" ++
  "Esto no es una limitación arbitraria: el objetivo es que desarrolles tu capacidad de razonamiento " ++
  "y resolución de problemas, que son competencias fundamentales.\n\n" ++
  "¿Podés reformular tu consulta siguiendo estas pautas?"

/-- The blocked-response dict of `_generate_blocked_response`:
`blocked=True`, the gate's reason under `block_reason`, and
`requires_reformulation=True`. -/
structure BlockedResponse where
  response : String
  blocked : Bool
  block_reason : String
  requires_reformulation : Bool
  deriving DecidableEq, Repr

def generate_blocked_response (reason : String)
    (classification : Classification) : BlockedResponse :=
  { response := pyStrip (blocked_message reason), blocked := true,
    block_reason := reason, requires_reformulation := true }

/-- The value `process_interaction` returns on success: one of the
mode-specific response dicts. -/
inductive InteractionResult where
  | blocked (b : BlockedResponse)
  | tutor (r : TutorResponse)
  | simple (message : String) (mode : String)
  deriving DecidableEq, Repr

/-- String value of an agent mode (`current_mode.value`). -/
def AgentMode.str : AgentMode → String
  | .tutor => "TUTOR"
  | .simulator => "SIMULATOR"
  | .evaluator => "EVALUATOR"

/-- `AIGateway.process_interaction`, the orchestrator.  The classifier and
the strategy generator are methods of the injected cognitive engine
(`core/cognitive_engine.py`, missing from the sources), so they are passed
as function parameters; the governance gate follows the spec-modelled
`should_block_response`.  Metrics emission is best-effort and has no effect
on the modelled state. -/
def process_interaction (consts : ValidationConsts)
    (classify : String → Option ContextPayload → Classification)
    (strategyFn : String → Classification → List CognitiveTrace → Strategy)
    (llm : LLMGen) (st : GatewayState) (session_id prompt : String)
    (context : Option ContextPayload) :
    GatewayState × Except String InteractionResult :=
  match validate_interaction_input consts session_id prompt context with
  | .error e => (st, .error e)
  | .ok _ =>
    match st.session_repo with
    | none =>
        (st, .error "Session repo no disponible - no se puede procesar interacción")
    | some sessions =>
      match sessions.lookup session_id with
      | none => (st, .error ("Sesión " ++ session_id ++ " no encontrada en BD"))
      | some sess =>
        let student_id := sess.student_id
        let activity_id := sess.activity_id
        let current_mode := sess.mode
        let classification := classify prompt context
        let gate := should_block_response classification
        let input_trace := create_trace session_id student_id activity_id
          .student_prompt prompt .n4_cognitivo classification.cognitive_state none
        let st := persist_trace st input_trace
        if gate.1 then
          let response := generate_blocked_response gate.2 classification
          let intervention_trace := create_trace session_id student_id
            activity_id .tutor_intervention response.response .n4_cognitivo
            none (some "GOV-IA")
          let st := persist_trace st intervention_trace
          let st := persist_risk st (create_risk session_id student_id
            activity_id .cognitive_delegation .high .cognitive
            "Delegación total detectada en el prompt" [prompt] [input_trace.id])
          (st, .ok (.blocked response))
        else
          let history := get_student_history st student_id (some activity_id)
          let strategy := strategyFn prompt classification history
          let dispatched : GatewayState × InteractionResult :=
            match current_mode with
            | .tutor =>
                let r := process_tutor_mode llm st session_id prompt strategy
                  classification
                (r.1, .tutor r.2)
            | .simulator =>
                (st, .simple "[Modo Simulador - En desarrollo]" "simulator")
            | .evaluator =>
                (st, .simple "[Modo Evaluador - En desarrollo]" "evaluator")
          let st := dispatched.1
          let result := dispatched.2
          let response_content :=
            match result with
            | .tutor r => r.response
            | .simple m _ => m
            | .blocked b => b.response
          let response_trace := create_trace session_id student_id activity_id
            .ai_response response_content .n4_cognitivo none
            (some current_mode.str)
          let st := persist_trace st response_trace
          let st := (analyze_risks_async st session_id input_trace
            response_trace classification).1
          (st, .ok result)

/-! ### State-preservation lemmas -/

theorem persist_trace_risk_repo (st : GatewayState) (t : CognitiveTrace) :
    (persist_trace st t).risk_repo = st.risk_repo := by
  unfold persist_trace; split <;> rfl

theorem persist_trace_llm_calls (st : GatewayState) (t : CognitiveTrace) :
    (persist_trace st t).llm_calls = st.llm_calls := by
  unfold persist_trace; split <;> rfl

theorem persist_risk_llm_calls (st : GatewayState) (r : Risk) :
    (persist_risk st r).llm_calls = st.llm_calls := by
  unfold persist_risk; split <;> rfl

theorem persist_risk_of_some (st : GatewayState) (r : Risk) (rs : List Risk)
    (h : st.risk_repo = some rs) :
    (persist_risk st r).risk_repo = some (rs ++ [r]) := by
  unfold persist_risk
  rw [h]

/-! ### C2: delegation prompts are blocked before any generation -/

/-- C2: when the classification marks the prompt as delegation, the pipeline
returns a blocked response with `blocked = true` and a non-empty
`block_reason`, persists exactly one risk — of type cognitive_delegation at
level HIGH — and never invokes the Language Model Port (its call counter is
unchanged). -/
theorem c2_delegation_blocked (consts : ValidationConsts)
    (classify : String → Option ContextPayload → Classification)
    (strategyFn : String → Classification → List CognitiveTrace → Strategy)
    (llm : LLMGen) (st : GatewayState)
    (sessions : List (String × SessionRec)) (sess : SessionRec)
    (risks : List Risk) (sid prompt : String) (context : Option ContextPayload)
    (hval : validate_interaction_input consts sid prompt context = .ok ())
    (hrepo : st.session_repo = some sessions)
    (hsess : sessions.lookup sid = some sess)
    (hrisk : st.risk_repo = some risks)
    (hdel : (classify prompt context).is_delegation = true) :
    ∃ b : BlockedResponse,
      (process_interaction consts classify strategyFn llm st sid prompt
          context).2 = .ok (.blocked b) ∧
      b.blocked = true ∧
      b.block_reason ≠ "" ∧
      (∃ r : Risk,
        (process_interaction consts classify strategyFn llm st sid prompt
            context).1.risk_repo = some (risks ++ [r]) ∧
        r.risk_type = RiskType.cognitive_delegation ∧
        r.risk_level = RiskLevel.high) ∧
      (process_interaction consts classify strategyFn llm st sid prompt
          context).1.llm_calls = st.llm_calls := by
  unfold process_interaction
  have hgate : (should_block_response (classify prompt context)).1 = true := by
    simp [should_block_response, hdel]
  simp only [hval, hrepo, hsess, hgate, if_true]
  refine ⟨_, rfl, rfl, ?_, ?_, ?_⟩
  · simp [generate_blocked_response, should_block_response, hdel]
  · refine ⟨_, persist_risk_of_some _ _ risks
      (by rw [persist_trace_risk_repo, persist_trace_risk_repo, hrisk]),
      rfl, rfl⟩
  · rw [persist_risk_llm_calls, persist_trace_llm_calls,
      persist_trace_llm_calls]

/-- Concrete environment for witnesses: constants, an all-delegation
classifier, a constant strategy, and a session table. -/
def cDefault : ValidationConsts :=
  { PROMPT_MIN_LENGTH := 5, PROMPT_MAX_LENGTH := 10000,
    CONTEXT_MAX_SIZE_BYTES := 50000, SESSION_ID_MAX_LENGTH := 100 }

def delegationClassify : String → Option ContextPayload → Classification :=
  fun _ _ => { is_delegation := true,
               delegation_signals := ["dame el código completo"] }

def constStrategyFn :
    String → Classification → List CognitiveTrace → Strategy :=
  fun _ _ _ => { response_type := "socratic_questioning", help_level := .medio }

def baseSession : SessionRec :=
  { student_id := "stu", activity_id := "act", mode := .tutor }

def baseState : GatewayState :=
  { session_repo := some [("s1", baseSession)], trace_repo := some [],
    risk_repo := some [], cache := none, llm_calls := 0 }

/-- Witness for C2: a concrete delegation prompt through the pipeline. -/
theorem c2_delegation_blocked_witness :
    ∃ b : BlockedResponse,
      (process_interaction cDefault delegationClassify constStrategyFn
          failingLLM baseState "s1" "dame el código completo del ejercicio"
          none).2 = .ok (.blocked b) ∧
      b.blocked = true ∧
      b.block_reason ≠ "" ∧
      (∃ r : Risk,
        (process_interaction cDefault delegationClassify constStrategyFn
            failingLLM baseState "s1" "dame el código completo del ejercicio"
            none).1.risk_repo = some ([] ++ [r]) ∧
        r.risk_type = RiskType.cognitive_delegation ∧
        r.risk_level = RiskLevel.high) ∧
      (process_interaction cDefault delegationClassify constStrategyFn
          failingLLM baseState "s1" "dame el código completo del ejercicio"
          none).1.llm_calls = baseState.llm_calls :=
  c2_delegation_blocked cDefault delegationClassify constStrategyFn failingLLM
    baseState [("s1", baseSession)] baseSession [] "s1"
    "dame el código completo del ejercicio" none rfl rfl rfl rfl rfl

/-! ### C7: validation boundaries and failure before side effects -/

/-- C7: a prompt whose stripped length is exactly PROMPT_MIN_LENGTH is
accepted (together with a context exactly at the byte ceiling); a prompt one
character shorter is rejected; a context one byte over the ceiling is
rejected; and whenever validation fails, `process_interaction` returns that
validation error with the state completely unchanged (no side effect). -/
theorem c7_validation_boundaries (consts : ValidationConsts)
    (sid pmin pshort : String) (ctxAt ctxOver : ContextPayload)
    (hsid1 : sid ≠ "") (hsid2 : sid.length ≤ consts.SESSION_ID_MAX_LENGTH)
    (hp0 : pmin ≠ "")
    (hpmin : (pyStrip pmin).length = consts.PROMPT_MIN_LENGTH)
    (hminmax : consts.PROMPT_MIN_LENGTH ≤ consts.PROMPT_MAX_LENGTH)
    (hshort : (pyStrip pshort).length + 1 = consts.PROMPT_MIN_LENGTH)
    (hctxAt : ctxAt.json_size = consts.CONTEXT_MAX_SIZE_BYTES)
    (hctxOver : ctxOver.json_size = consts.CONTEXT_MAX_SIZE_BYTES + 1) :
    validate_interaction_input consts sid pmin (some ctxAt) = .ok () ∧
    (validate_interaction_input consts sid pshort (some ctxAt)).isOk = false ∧
    (validate_interaction_input consts sid pmin (some ctxOver)).isOk = false ∧
    (∀ classify strategyFn llm st prompt context e,
      validate_interaction_input consts sid prompt context = .error e →
      process_interaction consts classify strategyFn llm st sid prompt
        context = (st, .error e)) := by
  refine ⟨?_, ?_, ?_, ?_⟩
  · simp only [validate_interaction_input]
    rw [if_neg hsid1, if_neg (by omega), if_neg hp0, if_neg (by omega),
      if_neg (by omega)]
    rw [if_neg (by omega)]
  · simp only [validate_interaction_input]
    rw [if_neg hsid1, if_neg (by omega)]
    by_cases hps : pshort = ""
    · rw [if_pos hps]
      rfl
    · rw [if_neg hps, if_pos (by omega)]
      rfl
  · simp only [validate_interaction_input]
    rw [if_neg hsid1, if_neg (by omega), if_neg hp0, if_neg (by omega),
      if_neg (by omega)]
    rw [if_pos (by omega)]
    rfl
  · intro classify strategyFn llm st prompt context e hval
    unfold process_interaction
    rw [hval]

/-- Witness for C7: concrete bounds (min 5, ceiling 50000), a 5-character
prompt, a 4-character prompt, and payloads at 50000 and 50001 bytes. -/
theorem c7_validation_boundaries_witness :
    validate_interaction_input cDefault "s1" "hola!" (some ⟨50000⟩) = .ok () ∧
    (validate_interaction_input cDefault "s1" "hola" (some ⟨50000⟩)).isOk
      = false ∧
    (validate_interaction_input cDefault "s1" "hola!" (some ⟨50001⟩)).isOk
      = false ∧
    (∀ classify strategyFn llm st prompt context e,
      validate_interaction_input cDefault "s1" prompt context = .error e →
      process_interaction cDefault classify strategyFn llm st "s1" prompt
        context = (st, .error e)) :=
  c7_validation_boundaries cDefault "s1" "hola!" "hola" ⟨50000⟩ ⟨50001⟩
    (by decide) (by decide) (by decide) (by decide) (by decide) (by decide)
    rfl rfl

/-! ### C6: LLM failures degrade to canned responses -/

/-- C6: if the Language Model Port raises, each tutor-mode call site returns
its fixed canned response (socratic, conceptual, guided hints), and for a
validated request on an existing session the pipeline still returns a
successful result — the exception is never propagated to the caller of
`process_interaction`. -/
theorem c6_llm_failure_canned_fallback (llm : LLMGen) (e : String)
    (st : GatewayState) (p : String) (strat : Strategy)
    (hllm : ∀ msgs mt temp, llm msgs mt temp = .error e) :
    (generate_socratic_response llm st p strat).2 = SOCRATIC_FALLBACK ∧
    (generate_conceptual_explanation llm st p strat).2 = CONCEPTUAL_FALLBACK ∧
    (generate_guided_hints llm st p strat).2 = GUIDED_HINTS_FALLBACK ∧
    (∀ consts classify strategyFn sid context sessions sess,
      validate_interaction_input consts sid p context = .ok () →
      st.session_repo = some sessions →
      sessions.lookup sid = some sess →
      ∃ res, (process_interaction consts classify strategyFn llm st sid p
          context).2 = .ok res) := by
  refine ⟨?_, ?_, ?_, ?_⟩
  · unfold generate_socratic_response
    rw [hllm]
  · unfold generate_conceptual_explanation
    rw [hllm]
  · unfold generate_guided_hints
    rw [hllm]
  · intro consts classify strategyFn sid context sessions sess hval hrepo hsess
    unfold process_interaction
    simp only [hval, hrepo, hsess]
    by_cases hb : (should_block_response (classify p context)).1 <;>
      simp only [hb, if_true, if_false] <;>
        cases sess.mode <;> exact ⟨_, rfl⟩

/-- Witness for C6: the concrete always-failing model on each call site and
on a full pipeline run. -/
theorem c6_llm_failure_canned_fallback_witness :
    (generate_socratic_response failingLLM baseState "que es una cola"
        { response_type := "socratic_questioning" }).2 = SOCRATIC_FALLBACK ∧
    (generate_conceptual_explanation failingLLM baseState "que es una cola"
        { response_type := "socratic_questioning" }).2 = CONCEPTUAL_FALLBACK ∧
    (generate_guided_hints failingLLM baseState "que es una cola"
        { response_type := "socratic_questioning" }).2
      = GUIDED_HINTS_FALLBACK ∧
    (∀ consts classify strategyFn sid context sessions sess,
      validate_interaction_input consts sid "que es una cola" context
        = .ok () →
      baseState.session_repo = some sessions →
      sessions.lookup sid = some sess →
      ∃ res, (process_interaction consts classify strategyFn failingLLM
          baseState sid "que es una cola" context).2 = .ok res) :=
  c6_llm_failure_canned_fallback failingLLM "timeout" baseState
    "que es una cola" { response_type := "socratic_questioning" }
    (fun _ _ _ => rfl)

/-! ### C1: step-9 findings are never persisted (code bug) -/

/-- Constant classifier for the C1 run: not a delegation, not a question. -/
def plainClassify : String → Option ContextPayload → Classification :=
  fun _ _ => { is_delegation := false, is_question := false }

/-- The input and response traces the C1 run constructs. -/
def c1InputTrace : CognitiveTrace :=
  create_trace "s1" "stu" "act" .student_prompt
    "implemento una pila con listas" .n4_cognitivo none none

def c1ResponseTrace : CognitiveTrace :=
  create_trace "s1" "stu" "act" .ai_response SOCRATIC_FALLBACK
    .n4_cognitivo none (some "TUTOR")

/-- C1 (code bug): `_analyze_risks_async` never persists anything — its
resulting state is always the input state — although on the concrete
non-blocked run below it does detect a finding (the lack-of-justification
risk).  The full pipeline run leaves the risk repository empty while the
trace repository shows the exact traces the engine analyzed.  This
contradicts the spec ("persist any findings") and the source's own closing
comment, which claims the risks "are already persisted by _create_risk()"
while `_create_risk` documents itself as not persisting. -/
theorem c1_rule_engine_findings_not_persisted :
    (∀ (st : GatewayState) (sid : String) (it rt : CognitiveTrace)
        (cls : Classification),
      (analyze_risks_async st sid it rt cls).1 = st) ∧
    (process_interaction cDefault plainClassify constStrategyFn failingLLM
        baseState "s1" "implemento una pila con listas" none).1.risk_repo
      = some [] ∧
    (process_interaction cDefault plainClassify constStrategyFn failingLLM
        baseState "s1" "implemento una pila con listas" none).1.trace_repo
      = some [c1InputTrace, c1ResponseTrace] ∧
    (analyze_risks_detected "s1" c1InputTrace c1ResponseTrace
        (plainClassify "implemento una pila con listas" none)).map
        (fun r => r.risk_type) = [RiskType.lack_justification] := by
  refine ⟨?_, ?_, ?_, ?_⟩
  · intro st sid it rt cls
    unfold analyze_risks_async
    split <;> rfl
  · rfl
  · rfl
  · norm_num [analyze_risks_detected, create_risk, c1InputTrace,
      c1ResponseTrace, plainClassify, create_trace, pyStrip]

/-! ## Risk report reconstruction (C10) -/

/-- A persisted risk row as the risk repository returns it and as
`get_risk_report` reads it (`db_risk.<field>`); enum-valued columns are
assumed to hold valid values.  Note the reconstruction call site does not
read `db_risk.session_id`. -/
structure DbRisk where
  id : String
  student_id : String
  activity_id : String
  risk_type : RiskType
  risk_level : RiskLevel
  dimension : RiskDimension
  description : Option String := none
  evidence : Option (List String) := none
  trace_ids : Option (List String) := none
  deriving DecidableEq, Repr

/-- `AIGateway.get_risk_report`: `None` when the risk repository is not
injected; otherwise fetch the student's risks, filter by activity, return
`None` when none match, and otherwise fold them into a fresh `RiskReport`,
reconstructing each `Risk` WITHOUT passing `session_id` — which the pydantic
model requires, making the construction raise. -/
def get_risk_report (risk_repo : Option (List DbRisk))
    (student_id activity_id : String) : Except String (Option RiskReport) :=
  match risk_repo with
  | none => .ok none
  | some db =>
      let risks := (db.filter (fun r => r.student_id == student_id)).filter
        (fun r => r.activity_id == activity_id)
      if risks.isEmpty then .ok none
      else do
        let report ← risks.foldlM
          (fun (rep : RiskReport) dbr => do
            let risk ← Risk.construct dbr.id none dbr.student_id
              dbr.activity_id dbr.risk_type dbr.risk_level dbr.dimension
              (dbr.description.getD "") (dbr.evidence.getD [])
              (dbr.trace_ids.getD [])
            pure (rep.add_risk risk))
          { id := "report_" ++ student_id ++ "_" ++ activity_id,
            student_id := student_id, activity_id := some activity_id }
        pure (some report)

/-- C10: with the risk repository injected, `get_risk_report` raises a
validation error whenever at least one persisted risk matches the student
and activity — the reconstruction omits the required `session_id` field —
and returns `None` exactly when no risk matches. -/
theorem c10_get_risk_report_raises (db : List DbRisk) (sid aid : String) :
    ((db.filter (fun r => r.student_id == sid)).filter
        (fun r => r.activity_id == aid) ≠ [] →
      ∃ e, get_risk_report (some db) sid aid = .error e) ∧
    ((db.filter (fun r => r.student_id == sid)).filter
        (fun r => r.activity_id == aid) = [] →
      get_risk_report (some db) sid aid = .ok none) := by
  constructor
  · intro h
    obtain ⟨r, rs, hrs⟩ :
        ∃ r rs, (db.filter (fun r => r.student_id == sid)).filter
          (fun r => r.activity_id == aid) = r :: rs := by
      cases hfil : (db.filter (fun r => r.student_id == sid)).filter
          (fun r => r.activity_id == aid) with
      | nil => exact absurd hfil h
      | cons a l => exact ⟨a, l, rfl⟩
    refine ⟨"ValidationError: session_id Field required", ?_⟩
    simp only [get_risk_report]
    rw [hrs]
    rfl
  · intro h
    simp only [get_risk_report]
    rw [h]
    rfl

/-- A concrete persisted risk row. -/
def c10DbRisk : DbRisk :=
  { id := "r1", student_id := "stu", activity_id := "act",
    risk_type := .cognitive_delegation, risk_level := .high,
    dimension := .cognitive, description := some "delegacion" }

/-- Witness for C10: one matching risk raises; a non-matching activity
returns `None`. -/
theorem c10_get_risk_report_raises_witness :
    (∃ e, get_risk_report (some [c10DbRisk]) "stu" "act" = .error e) ∧
    get_risk_report (some [c10DbRisk]) "stu" "otra" = .ok none :=
  ⟨(c10_get_risk_report_raises [c10DbRisk] "stu" "act").1 (by decide),
   (c10_get_risk_report_raises [c10DbRisk] "stu" "otra").2 (by decide)⟩
